import Mathlib

/-!
Verification of `scripts/compare_experiments.py` (task-graph-mcp).

The Python script reads a task-graph SQLite database and computes an
`ExperimentResults` snapshot (six metric groups plus per-worker stats),
then compares two snapshots with signed deltas and a per-metric polarity
table.  This file gives a shallow embedding of that code:

* SQLite rows become Lean structures (`Task`, `SeqRow`), and a database
  becomes a `Store` (its `tasks` table plus the optional sequence table).
* Python ints/floats become `Nat`/`Int`/`ℚ`; Python's `round(x, n)`
  (round-half-to-even) becomes `roundPy n` built on `rhe`.
* Each SQL aggregate of the source filters `WHERE deleted_at IS NULL`;
  this is embedded by `liveTasks`, computed once and shared by the group
  functions, which is observably the same filter applied per query.
* SQLite's `SUM(CASE WHEN ..)` over an empty row set is NULL, so over a
  store with no live task rows the distribution counts come back `None`
  and `claimed_total = td.completed + td.failed + td.working` raises a
  `TypeError`: extraction crashes and produces no snapshot.  This is
  embedded by `sumStatusCase` (NULL-aware) and `distributionRun` /
  `extract_metrics` returning `Except`.
* Control flow that the pure embedding cannot see (the connection
  lifecycle with no try/finally, and `sys.exit(1)` on a missing file)
  is embedded by `extract_conn` and `extract_all`.
-/

namespace TaskGraphCompare

/-- Task / interval lifecycle states appearing in the source's SQL
(`'pending'`, `'assigned'`, `'working'`, `'completed'`, `'failed'`,
`'cancelled'`; anything else is `other`). -/
inductive Status where
  | pending
  | assigned
  | working
  | completed
  | failed
  | cancelled
  | other
deriving DecidableEq

/-- One row of the `tasks` table, with the columns the script reads.
`Option` encodes SQL NULL.  The eight token channels `metric_0..metric_7`
are summed with `COALESCE(SUM(..), 0)`; a NULL channel contributes 0 to a
sum, so channels are embedded as `Nat` directly. -/
structure Task where
  id : Nat
  status : Status
  points : Nat
  time_actual_ms : Option Int
  created_at : Option Int
  started_at : Option Int
  completed_at : Option Int
  worker_id : Option String
  cost_usd : ℚ
  metric_0 : Nat
  metric_1 : Nat
  metric_2 : Nat
  metric_3 : Nat
  metric_4 : Nat
  metric_5 : Nat
  metric_6 : Nat
  metric_7 : Nat
  deleted_at : Option Int
deriving DecidableEq

/-- One row of the state-sequence table (`task_sequence` or
`task_state_sequence`); `status` is the resolved state column
(`status` resp. `event`), `end_timestamp` NULL means a still-open
interval. -/
structure SeqRow where
  task_id : Nat
  status : Status
  timestamp : Int
  end_timestamp : Option Int
deriving DecidableEq

/-- A database: the mandatory `tasks` table and the optional sequence
table (`none` when neither candidate table exists, mirroring
`_get_sequence_table`). -/
structure Store where
  tasks : List Task
  seq : Option (List SeqRow)
deriving DecidableEq

/-- Dataclass `TimeMetrics` of the source. -/
structure TimeMetrics where
  total_duration_ms : Int
  avg_task_time_ms : ℚ
  median_task_time_ms : ℚ
  min_task_time_ms : Int
  max_task_time_ms : Int
  total_working_ms : Int
  total_blocked_ms : Int
  blocking_ratio_pct : ℚ
  avg_queue_wait_ms : ℚ
deriving DecidableEq

/-- Dataclass `TokenMetrics` of the source. -/
structure TokenMetrics where
  tokens_in : Nat
  tokens_out : Nat
  tokens_cached : Nat
  tokens_thinking : Nat
  tokens_image : Nat
  tokens_audio : Nat
  metric_6 : Nat
  metric_7 : Nat
  total_billable : Nat
  cache_hit_rate_pct : ℚ
  output_ratio : ℚ
  thinking_overhead : ℚ
deriving DecidableEq

/-- Dataclass `CostMetrics` of the source. -/
structure CostMetrics where
  total_cost_usd : ℚ
  avg_cost_per_task : ℚ
  cost_per_completed_task : ℚ
  cost_per_point : ℚ
deriving DecidableEq

/-- Dataclass `TaskDistribution` of the source. -/
structure TaskDistribution where
  total_tasks : Nat
  completed : Nat
  failed : Nat
  cancelled : Nat
  pending : Nat
  working : Nat
  completion_rate_pct : ℚ
  failure_rate_pct : ℚ
  total_points : Nat
  completed_points : Nat
deriving DecidableEq

/-- Dataclass `QualityMetrics` of the source. -/
structure QualityMetrics where
  rework_count : Nat
  rework_rate_pct : ℚ
  avg_rework_cycles : ℚ
  first_pass_success_pct : ℚ
deriving DecidableEq

/-- Dataclass `ThroughputMetrics` of the source. -/
structure ThroughputMetrics where
  tasks_per_hour : ℚ
  points_per_hour : ℚ
  avg_tasks_per_agent_hour : ℚ
deriving DecidableEq

/-- Dataclass `AgentStats` of the source. -/
structure AgentStats where
  worker_id : String
  tasks_completed : Nat
  tasks_failed : Nat
  total_cost_usd : ℚ
  total_time_ms : Int
  tokens_in : Nat
  tokens_out : Nat
deriving DecidableEq

/-- Dataclass `ExperimentResults` of the source. -/
structure ExperimentResults where
  label : String
  db_path : String
  agent_count : Nat
  time : TimeMetrics
  tokens : TokenMetrics
  cost : CostMetrics
  tasks : TaskDistribution
  quality : QualityMetrics
  throughput : ThroughputMetrics
  agents : List AgentStats
deriving DecidableEq

/-- `_safe_div(numerator, denominator, default)`:
`numerator / denominator if denominator else default`.  A `none`
denominator embeds Python `None` (falsy, like `0`); the function is
total and never raises. -/
def safe_div (numerator : ℚ) (denominator : Option ℚ) (default : ℚ) : ℚ :=
  match denominator with
  | Option.none => default
  | Option.some d => if d = 0 then default else numerator / d

/-- Round to the nearest integer, ties to even: the rounding of Python's
built-in `round` (applied here to exact rational values). -/
def rhe (x : ℚ) : ℤ :=
  if x - (⌊x⌋ : ℚ) < 1 / 2 then ⌊x⌋
  else if 1 / 2 < x - (⌊x⌋ : ℚ) then ⌊x⌋ + 1
  else if ⌊x⌋ % 2 = 0 then ⌊x⌋ else ⌊x⌋ + 1

/-- Python's `round(x, digits)` on exact rational values. -/
def roundPy (digits : Nat) (x : ℚ) : ℚ :=
  (rhe (x * 10 ^ digits) : ℚ) / 10 ^ digits

/-- The rows every task aggregate ranges over: the source repeats
`WHERE deleted_at IS NULL` in each of its task-table queries. -/
def liveTasks (ts : List Task) : List Task :=
  ts.filter fun t => t.deleted_at.isNone

/-- `SUM(CASE WHEN status = s THEN 1 ELSE 0 END)` over a row list. -/
def countStatus (s : Status) (l : List Task) : Nat :=
  (l.filter fun t => t.status = s).length

/-- `COALESCE(SUM(CASE WHEN status = 'completed' THEN points ELSE 0 END), 0)`. -/
def completedPoints (l : List Task) : Nat :=
  ((l.filter fun t => t.status = Status.completed).map (·.points)).sum

/-- `SUM(CASE WHEN status = s THEN 1 ELSE 0 END)` with SQLite NULL
semantics: over an empty row set `SUM` returns NULL (`none`), otherwise
the count. -/
def sumStatusCase (s : Status) (l : List Task) : Option Nat :=
  if l.isEmpty then Option.none else Option.some (countStatus s l)

/-- The `TaskDistribution` record built at lines 205-217 when the
status-count aggregates are non-NULL (at least one live row): counts,
points, and the two rates over the claimed total
`completed + failed + working`. -/
def distributionNonNull (live : List Task) : TaskDistribution :=
  let completed := countStatus Status.completed live
  let failed := countStatus Status.failed live
  let cancelled := countStatus Status.cancelled live
  let pending := countStatus Status.pending live
  let working := countStatus Status.working live
  let claimed_total : ℚ := (completed : ℚ) + (failed : ℚ) + (working : ℚ)
  { total_tasks := live.length
    completed := completed
    failed := failed
    cancelled := cancelled
    pending := pending
    working := working
    completion_rate_pct :=
      roundPy 1 (safe_div ((completed : ℚ) * 100) (Option.some claimed_total) 0)
    failure_rate_pct :=
      roundPy 1 (safe_div ((failed : ℚ) * 100) (Option.some claimed_total) 0)
    total_points := (live.map (·.points)).sum
    completed_points := completedPoints live }

/-- Source block 1 (task distribution): one aggregate pass over the live
rows.  When the row set is empty every `SUM(CASE ..)` column is NULL, so
`claimed_total = td.completed + td.failed + td.working` (line 215) adds
`None` values and raises `TypeError` — the error branch.  Otherwise the
counts are integers and the record is built as usual. -/
def distributionRun (live : List Task) : Except Unit TaskDistribution :=
  match sumStatusCase Status.completed live, sumStatusCase Status.failed live,
      sumStatusCase Status.cancelled live, sumStatusCase Status.pending live,
      sumStatusCase Status.working live with
  | Option.some _, Option.some _, Option.some _, Option.some _, Option.some _ =>
    Except.ok (distributionNonNull live)
  | _, _, _, _, _ => Except.error ()

/-- `COALESCE(end_timestamp, now) - timestamp` for one sequence row:
an open interval is closed with the current wall-clock (ms) only for
this aggregation. -/
def intervalMs (now : Int) (r : SeqRow) : Int :=
  r.end_timestamp.getD now - r.timestamp

/-- Sum of working-interval durations (`WHERE status = 'working'`; the
query has no join with `tasks` and no `deleted_at` filter). -/
def workingMs (seq : List SeqRow) (now : Int) : Int :=
  ((seq.filter fun r => r.status = Status.working).map (intervalMs now)).sum

/-- Sum of blocked-interval durations
(`WHERE status IN ('pending', 'assigned')`; again no task join). -/
def blockedMs (seq : List SeqRow) (now : Int) : Int :=
  ((seq.filter fun r =>
      r.status = Status.pending ∨ r.status = Status.assigned).map
    (intervalMs now)).sum

/-- Source: `AVG(started_at - created_at)` over live tasks having both
timestamps, `round(.. or 0, 1)`. -/
def avgQueueWait (live : List Task) : ℚ :=
  let waits := live.filterMap fun t =>
    match t.started_at, t.created_at with
    | Option.some s, Option.some c => Option.some (s - c)
    | _, _ => Option.none
  roundPy 1 (if waits.isEmpty then 0 else (waits.sum : ℚ) / (waits.length : ℚ))

/-- The source's `actual_times`: positive actual durations of live rows
(NULL and 0 excluded by `time_actual_ms > 0`), in ascending order
(`ORDER BY time_actual_ms`). -/
def sortedPositiveTimes (live : List Task) : List Int :=
  List.insertionSort (· ≤ ·)
    ((live.filterMap (·.time_actual_ms)).filter fun x => 0 < x)

/-- Median task time: middle element of `actual_times` for an odd count,
mean of the two central elements for an even count, 0 when the list is
empty.  In-range indexing is embedded with `getD`. -/
def medianOf (live : List Task) : ℚ :=
  let times := sortedPositiveTimes live
  if times.isEmpty then 0
  else
    let mid := times.length / 2
    if times.length % 2 = 0 then
      ((times.getD (mid - 1) 0 : ℚ) + (times.getD mid 0 : ℚ)) / 2
    else (times.getD mid 0 : ℚ)

/-- Source block 2 (time metrics).  `if first and last:` is Python
truthiness, so a 0 timestamp also leaves the duration at 0. -/
def timeOf (live : List Task) (seq : Option (List SeqRow)) (now : Int) :
    TimeMetrics :=
  let first := (live.filterMap (·.created_at)).min?
  let last := (live.filterMap (·.completed_at)).max?
  let total_duration : Int :=
    match first, last with
    | Option.some f, Option.some l => if f ≠ 0 ∧ l ≠ 0 then l - f else 0
    | _, _ => 0
  let actual : List Int := live.filterMap (·.time_actual_ms)
  let working_ms := match seq with
    | Option.none => 0
    | Option.some s => workingMs s now
  let blocked_ms := match seq with
    | Option.none => 0
    | Option.some s => blockedMs s now
  { total_duration_ms := total_duration
    avg_task_time_ms :=
      roundPy 1 (if actual.isEmpty then 0 else (actual.sum : ℚ) / (actual.length : ℚ))
    median_task_time_ms := medianOf live
    min_task_time_ms := ((actual.filter fun x => 0 < x).min?).getD 0
    max_task_time_ms := (actual.max?).getD 0
    total_working_ms := working_ms
    total_blocked_ms := blocked_ms
    blocking_ratio_pct := match seq with
      | Option.none => 0
      | Option.some _ =>
        roundPy 1 (safe_div ((blocked_ms : ℚ) * 100)
          (Option.some ((working_ms : ℚ) + (blocked_ms : ℚ))) 0)
    avg_queue_wait_ms := match seq with
      | Option.none => 0
      | Option.some _ => avgQueueWait live }

/-- Source block 3 (token metrics): channel sums over live rows, then the
three derived ratios through `_safe_div`. -/
def tokensOf (live : List Task) : TokenMetrics :=
  let m0 := (live.map (·.metric_0)).sum
  let m1 := (live.map (·.metric_1)).sum
  let m2 := (live.map (·.metric_2)).sum
  let m3 := (live.map (·.metric_3)).sum
  let m4 := (live.map (·.metric_4)).sum
  let m5 := (live.map (·.metric_5)).sum
  let m6 := (live.map (·.metric_6)).sum
  let m7 := (live.map (·.metric_7)).sum
  { tokens_in := m0
    tokens_out := m1
    tokens_cached := m2
    tokens_thinking := m3
    tokens_image := m4
    tokens_audio := m5
    metric_6 := m6
    metric_7 := m7
    total_billable := m0 + m1 + m3
    cache_hit_rate_pct :=
      roundPy 1 (safe_div ((m2 : ℚ) * 100) (Option.some ((m0 : ℚ) + (m2 : ℚ))) 0)
    output_ratio := roundPy 3 (safe_div (m1 : ℚ) (Option.some (m0 : ℚ)) 0)
    thinking_overhead := roundPy 3 (safe_div (m3 : ℚ) (Option.some (m1 : ℚ)) 0) }

/-- Source block 4 (cost metrics). -/
def costOf (live : List Task) : CostMetrics :=
  let total := (live.map (·.cost_usd)).sum
  let completed := countStatus Status.completed live
  let pts := completedPoints live
  { total_cost_usd := roundPy 4 total
    avg_cost_per_task := roundPy 4 (safe_div total (Option.some (live.length : ℚ)) 0)
    cost_per_completed_task := roundPy 4 (safe_div total (Option.some (completed : ℚ)) 0)
    cost_per_point := roundPy 4 (safe_div total (Option.some (pts : ℚ)) 0) }

/-- The distinct task ids of the `GROUP BY task_id` over rows
`WHERE status = 'working'`. -/
def workingTaskIds (seq : List SeqRow) : List Nat :=
  ((seq.filter fun r => r.status = Status.working).map (·.task_id)).dedup

/-- `COUNT(*)` of working rows of one task: its `working_periods`. -/
def workingPeriods (seq : List SeqRow) (tid : Nat) : Nat :=
  (seq.filter fun r => r.status = Status.working ∧ r.task_id = tid).length

/-- Source block 5 (quality / rework): a task with at least one working
interval is reworked iff it has strictly more than one; the cycle
average ranges over reworked tasks only. -/
def qualityOf (seq : List SeqRow) : QualityMetrics :=
  let ids := workingTaskIds seq
  let total_with_work := ids.length
  let reworkedIds := ids.filter fun tid => 1 < workingPeriods seq tid
  let reworked := reworkedIds.length
  let rework_cycles := reworkedIds.map (workingPeriods seq)
  { rework_count := reworked
    rework_rate_pct :=
      roundPy 1 (safe_div ((reworked : ℚ) * 100) (Option.some (total_with_work : ℚ)) 0)
    avg_rework_cycles :=
      roundPy 1 (safe_div (rework_cycles.sum : ℚ)
        (Option.some (rework_cycles.length : ℚ)) 0)
    first_pass_success_pct :=
      roundPy 1 (safe_div ((total_with_work - reworked : ℕ) * 100)
        (Option.some (total_with_work : ℚ)) 0) }

/-- Source block 6 (throughput), including the per-agent-hour figure the
source fills in after the agent pass. -/
def throughputOf (live : List Task) (total_duration_ms : Int) (agent_count : Nat) :
    ThroughputMetrics :=
  let completed := countStatus Status.completed live
  let cpts := completedPoints live
  let duration_hours : ℚ :=
    safe_div (total_duration_ms : ℚ) (Option.some (3600000 : ℚ)) 0
  { tasks_per_hour :=
      roundPy 2 (safe_div (completed : ℚ) (Option.some duration_hours) 0)
    points_per_hour :=
      roundPy 2 (safe_div (cpts : ℚ) (Option.some duration_hours) 0)
    avg_tasks_per_agent_hour :=
      if 0 < agent_count ∧ 0 < duration_hours then
        roundPy 2 (safe_div (completed : ℚ)
          (Option.some (duration_hours * (agent_count : ℚ))) 0)
      else 0 }

/-- Unrounded total cost of one worker's live rows (the `ORDER BY cost
DESC` key of the agent query). -/
def workerCost (live : List Task) (w : String) : ℚ :=
  ((live.filter fun t => t.worker_id = Option.some w).map (·.cost_usd)).sum

/-- One `AgentStats` row of the `GROUP BY worker_id` aggregate. -/
def agentStatsFor (live : List Task) (w : String) : AgentStats :=
  let rows := live.filter fun t => t.worker_id = Option.some w
  { worker_id := w
    tasks_completed := countStatus Status.completed rows
    tasks_failed := countStatus Status.failed rows
    total_cost_usd := roundPy 4 (workerCost live w)
    total_time_ms := (rows.filterMap (·.time_actual_ms)).sum
    tokens_in := (rows.map (·.metric_0)).sum
    tokens_out := (rows.map (·.metric_1)).sum }

/-- Source block 7 (agent stats): live rows with a non-NULL worker,
grouped by worker, ordered by descending cost. -/
def agentsOf (live : List Task) : List AgentStats :=
  let ids := (live.filterMap (·.worker_id)).dedup
  (List.insertionSort (fun a b => workerCost live b ≤ workerCost live a) ids).map
    (agentStatsFor live)

/-- The quality group as filled by the source: computed from the
sequence rows when the table exists (`if seq_table:`), left at the
dataclass zero defaults otherwise. -/
def qualityOpt (seq : Option (List SeqRow)) : QualityMetrics :=
  match seq with
  | Option.none => ⟨0, 0, 0, 0⟩
  | Option.some s => qualityOf s

/-- `extract_metrics(db_path, label)` after the store has been opened:
the computation of the snapshot from the store contents.  `now` is the
wall-clock sample used to close still-open intervals.  The distribution
block runs first; its `TypeError` on a store with no live rows aborts
the whole extraction (the exception is uncaught), so no snapshot is
produced on that path. -/
def extract_metrics (st : Store) (db_path label : String) (now : Int) :
    Except Unit ExperimentResults :=
  let live := liveTasks st.tasks
  match distributionRun live with
  | Except.error e => Except.error e
  | Except.ok td =>
    let tm := timeOf live st.seq now
    let tk := tokensOf live
    let cm := costOf live
    let qm := qualityOpt st.seq
    let ags := agentsOf live
    let tp := throughputOf live tm.total_duration_ms ags.length
    Except.ok
      { label := label
        db_path := db_path
        agent_count := ags.length
        time := tm
        tokens := tk
        cost := cm
        tasks := td
        quality := qm
        throughput := tp
        agents := ags }

/-- The source's delta indicator string: `" (+)"` (improvement),
`" (-)"` (regression), or `""` (no marker). -/
inductive Marker where
  | improvement
  | regression
  | nomark
deriving DecidableEq

/-- The numeric and marker content of one row built by `_delta`. -/
structure DeltaRow where
  diff : ℚ
  pct : ℚ
  marker : Marker
deriving DecidableEq

/-- `_delta(va, vb, fmt_fn, lower_better)` of the source, stripped of
string formatting: `diff = vb - va`,
`pct = _safe_div(diff * 100, abs(va)) if va else 0`, and the indicator
set only when `diff != 0`, `(+)` when diff's sign matches the favorable
direction of the metric. -/
def delta_core (va vb : ℚ) (lower_better : Bool) : DeltaRow :=
  let diff := vb - va
  let pct := if va = 0 then 0 else safe_div (diff * 100) (Option.some |va|) 0
  let indicator :=
    if diff = 0 then Marker.nomark
    else if lower_better then
      (if diff < 0 then Marker.improvement else Marker.regression)
    else
      (if 0 < diff then Marker.improvement else Marker.regression)
  { diff := diff, pct := pct, marker := indicator }

/-- The eight tracked metrics of the source's delta-analysis table. -/
inductive TrackedMetric where
  | totalDuration
  | totalCost
  | tasksCompleted
  | completionRate
  | tasksPerHour
  | reworkRate
  | totalBillableTokens
  | blockingRatioPct
deriving DecidableEq

/-- The static polarity table: the `lower_better` argument passed for
each metric in `generate_markdown`'s `delta_rows`. -/
def lowerIsBetter : TrackedMetric → Bool
  | TrackedMetric.totalDuration => true
  | TrackedMetric.totalCost => true
  | TrackedMetric.tasksCompleted => false
  | TrackedMetric.completionRate => false
  | TrackedMetric.tasksPerHour => false
  | TrackedMetric.reworkRate => true
  | TrackedMetric.totalBillableTokens => true
  | TrackedMetric.blockingRatioPct => true

/-- The snapshot field each tracked metric reads (the `va`/`vb`
arguments of the `_delta` calls). -/
def metricValue (r : ExperimentResults) : TrackedMetric → ℚ
  | TrackedMetric.totalDuration => (r.time.total_duration_ms : ℚ)
  | TrackedMetric.totalCost => r.cost.total_cost_usd
  | TrackedMetric.tasksCompleted => (r.tasks.completed : ℚ)
  | TrackedMetric.completionRate => r.tasks.completion_rate_pct
  | TrackedMetric.tasksPerHour => r.throughput.tasks_per_hour
  | TrackedMetric.reworkRate => r.quality.rework_rate_pct
  | TrackedMetric.totalBillableTokens => (r.tokens.total_billable : ℚ)
  | TrackedMetric.blockingRatioPct => r.time.blocking_ratio_pct

/-- One row of the delta-analysis section comparing snapshots `a` (run
A) and `b` (run B). -/
def deltaRow (a b : ExperimentResults) (m : TrackedMetric) : DeltaRow :=
  delta_core (metricValue a m) (metricValue b m) (lowerIsBetter m)

/-- Connection bookkeeping of one `extract_metrics` call: how many times
a connection was opened and how many times it was closed. -/
structure ConnTrace where
  opens : Nat
  closes : Nat
deriving DecidableEq

/-- Number of statements executed on the connection during one
successful extraction, in issue order: the `sqlite_master` probe(s) of
`_get_sequence_table` (1 when `task_sequence` exists, 2 when neither
table does), the distribution, time and median queries, then with a
sequence table the PRAGMA, working, blocked and queue-wait queries, the
token and cost queries, with a sequence table the second PRAGMA and the
rework query, and finally the agent query.  On a store with no live
rows only the probe(s) and the distribution query are actually issued
before the `TypeError`; the fault model below collapses the two error
kinds, so indices past the crash point still denote a failed, unclosed
extraction. -/
def queryCount (st : Store) : Nat :=
  if st.seq.isSome then 13 else 8

/-- The no-injected-fault path of one extraction with its connection
bookkeeping: the connection is closed only when the straight-line body
reaches `conn.close()` (line 447); the `TypeError` of the distribution
block propagates first on a store with no live rows, leaving the
connection unclosed. -/
def extract_conn_run (st : Store) (db_path label : String) (now : Int) :
    Except Unit ExperimentResults × ConnTrace :=
  match extract_metrics st db_path label now with
  | Except.error e => (Except.error e, { opens := 1, closes := 0 })
  | Except.ok v => (Except.ok v, { opens := 1, closes := 1 })

/-- `extract_metrics` with its connection lifecycle and a fault model:
`failAt = some i` means the `i`-th statement (0-based) raises an
operational error.  The source opens the read-only connection, issues
the statements in a straight line with no try/finally, and calls
`conn.close()` only after the last aggregate: a raising statement — or
the `TypeError` of the distribution block — propagates out of the
function before the `close` line is reached. -/
def extract_conn (st : Store) (db_path label : String) (now : Int)
    (failAt : Option Nat) : Except Unit ExperimentResults × ConnTrace :=
  match failAt with
  | Option.none => extract_conn_run st db_path label now
  | Option.some i =>
    if i < queryCount st then (Except.error (), { opens := 1, closes := 0 })
    else extract_conn_run st db_path label now

/-- One entry of `main`'s extraction loop: the store named by a CLI
database path (`none` when the file does not exist) and its label. -/
structure RunInput where
  store : Option Store
  db_path : String
  label : String

/-- How one loop iteration of `main` terminates: `sys.exit(1)` on a
missing database file, or the uncaught `TypeError` of the distribution
block; either one ends the whole process. -/
inductive ExtractError where
  | storeNotFound
  | typeError
deriving DecidableEq

/-- One iteration of `main`'s loop: a missing store makes
`extract_metrics` print an error and call `sys.exit(1)`; an existing
store with no live task rows raises `TypeError` inside
`extract_metrics`; otherwise the snapshot is produced. -/
def extract_run (r : RunInput) (now : Int) : Except ExtractError ExperimentResults :=
  match r.store with
  | Option.none => Except.error ExtractError.storeNotFound
  | Option.some st =>
    match extract_metrics st r.db_path r.label now with
    | Except.error _ => Except.error ExtractError.typeError
    | Except.ok v => Except.ok v

/-- `main`'s loop `for db_path, label in zip(args.databases, labels):
results.append(extract_metrics(db_path, label))`.  Either failure kind
terminates the whole process: no snapshot list is produced at all, also
discarding the snapshots of runs already extracted. -/
def extract_all (now : Int) : List RunInput → Except ExtractError (List ExperimentResults)
  | [] => Except.ok []
  | r :: rest =>
    match extract_run r now with
    | Except.error e => Except.error e
    | Except.ok v => (extract_all now rest).map (fun rs => v :: rs)

/-- A task row with every nullable column NULL and every counter 0. -/
def task0 : Task :=
  { id := 0, status := Status.pending, points := 0,
    time_actual_ms := Option.none, created_at := Option.none,
    started_at := Option.none, completed_at := Option.none,
    worker_id := Option.none, cost_usd := 0,
    metric_0 := 0, metric_1 := 0, metric_2 := 0, metric_3 := 0,
    metric_4 := 0, metric_5 := 0, metric_6 := 0, metric_7 := 0,
    deleted_at := Option.none }

/-- The end-to-end scenario of the spec: 7 completed, 2 failed,
1 working task. -/
def demoTasks : List Task :=
  List.replicate 7 { task0 with status := Status.completed } ++
  List.replicate 2 { task0 with status := Status.failed } ++
  [{ task0 with status := Status.working }]

/-- Store of the 7/2/1 scenario (no sequence table). -/
def demoStore : Store := { tasks := demoTasks, seq := Option.none }

/-- A store with no rows at all. -/
def emptyStore : Store := { tasks := [], seq := Option.none }

/-- Durations 10, 20, 30 (plus a zero and a NULL duration, which the
median must ignore), deliberately out of order. -/
def demoMedOdd : List Task :=
  [{ task0 with time_actual_ms := Option.some 30 },
   { task0 with time_actual_ms := Option.some 10 },
   { task0 with time_actual_ms := Option.some 0 },
   { task0 with time_actual_ms := Option.none },
   { task0 with time_actual_ms := Option.some 20 }]

/-- Durations 10, 20, 30, 40, deliberately out of order. -/
def demoMedEven : List Task :=
  [{ task0 with time_actual_ms := Option.some 20 },
   { task0 with time_actual_ms := Option.some 40 },
   { task0 with time_actual_ms := Option.some 10 },
   { task0 with time_actual_ms := Option.some 30 }]

/-- Sequence rows: task 1 has two working intervals (reworked), task 2
has one (first-pass). -/
def demoSeqRework : List SeqRow :=
  [{ task_id := 1, status := Status.working, timestamp := 0,
     end_timestamp := Option.some 10 },
   { task_id := 1, status := Status.working, timestamp := 20,
     end_timestamp := Option.some 30 },
   { task_id := 2, status := Status.working, timestamp := 0,
     end_timestamp := Option.some 5 }]

/-- A soft-deleted task (its `deleted_at` is set). -/
def delTask : Task := { task0 with id := 1, deleted_at := Option.some 0 }

/-- Two working intervals belonging to the soft-deleted task 1, of
durations 5000 ms and 1000 ms. -/
def delSeq : List SeqRow :=
  [{ task_id := 1, status := Status.working, timestamp := 0,
     end_timestamp := Option.some 5000 },
   { task_id := 1, status := Status.working, timestamp := 6000,
     end_timestamp := Option.some 7000 }]

/-- A store with a single live pending task: extraction succeeds and
the claimed total is 0. -/
def pendStore : Store := { tasks := [task0], seq := Option.none }

/-- A store whose only task is soft-deleted (live set empty), without a
sequence table. -/
def allDelStore : Store := { tasks := [delTask], seq := Option.none }

/-- A store with one live pending task and one soft-deleted task, whose
sequence table carries the soft-deleted task's working intervals. -/
def delStoreLive : Store :=
  { tasks := [task0, delTask], seq := Option.some delSeq }

/-- Three CLI runs; the first and third stores exist and have a live
task, the middle database file does not exist. -/
def runsDemo : List RunInput :=
  [{ store := Option.some pendStore, db_path := "a.db", label := "a" },
   { store := Option.none, db_path := "b.db", label := "b" },
   { store := Option.some pendStore, db_path := "c.db", label := "c" }]

/-! Helper lemmas about the rounding primitive and safe division. -/

theorem rhe_intCast (n : ℤ) : rhe (n : ℚ) = n := by
  unfold rhe
  rw [Int.floor_intCast, sub_self]
  norm_num

theorem rhe_le (x : ℚ) : (rhe x : ℚ) ≤ x + 1 / 2 := by
  unfold rhe
  have h1 : (⌊x⌋ : ℚ) ≤ x := Int.floor_le x
  have h2 : x < ⌊x⌋ + 1 := Int.lt_floor_add_one x
  split_ifs with ha hb hc <;> push_cast <;> linarith

theorem le_rhe (x : ℚ) : x - 1 / 2 ≤ (rhe x : ℚ) := by
  unfold rhe
  have h1 : (⌊x⌋ : ℚ) ≤ x := Int.floor_le x
  have h2 : x < ⌊x⌋ + 1 := Int.lt_floor_add_one x
  split_ifs with ha hb hc <;> push_cast <;> linarith

/-- Round-half-even respects the reflection `x ↦ n - x` around half of an
even integer `n`: the two roundings always sum back to `n` exactly.  This
is why the complementary percentage pairs of the script sum to 100. -/
theorem rhe_reflect (x : ℚ) (n : ℤ) (hn : n % 2 = 0) :
    rhe x + rhe ((n : ℚ) - x) = n := by
  have h1 : (⌊x⌋ : ℚ) ≤ x := Int.floor_le x
  have h2 : x < ⌊x⌋ + 1 := Int.lt_floor_add_one x
  by_cases hint : x = (⌊x⌋ : ℚ)
  · have hx : rhe x = ⌊x⌋ := by
      unfold rhe
      rw [← hint, sub_self]
      norm_num
    have hy : ((n : ℚ) - x) = ((n - ⌊x⌋ : ℤ) : ℚ) := by push_cast; rw [← hint]
    rw [hx, hy, rhe_intCast]
    omega
  · have hlt : (⌊x⌋ : ℚ) < x := lt_of_le_of_ne h1 (fun h => hint h.symm)
    have hfy : ⌊(n : ℚ) - x⌋ = n - ⌊x⌋ - 1 := by
      rw [Int.floor_eq_iff]
      constructor
      · push_cast; linarith
      · push_cast; linarith
    unfold rhe
    rw [hfy]
    split_ifs <;> push_cast at * <;> first | omega | linarith

theorem rhe_add_le (x y : ℚ) (h : x + y ≤ 1000) : rhe x + rhe y ≤ 1000 := by
  by_cases heq : x + y = 1000
  · have hy : y = ((1000 : ℤ) : ℚ) - x := by push_cast; linarith
    have hr := rhe_reflect x 1000 (by norm_num)
    rw [hy]
    omega
  · have hlt : x + y < 1000 := lt_of_le_of_ne h heq
    have h1 := rhe_le x
    have h2 := rhe_le y
    have h3 : ((rhe x + rhe y : ℤ) : ℚ) < 1001 := by push_cast; linarith
    have h4 : (rhe x + rhe y : ℤ) < 1001 := by exact_mod_cast h3
    omega

theorem roundPy_zero (k : ℕ) : roundPy k 0 = 0 := by
  unfold roundPy
  rw [zero_mul]
  have h : rhe 0 = 0 := by
    have := rhe_intCast 0
    simpa using this
  rw [h]
  simp

/-- Evaluation of `roundPy` when the scaled value is an exact integer. -/
theorem roundPy_eq_of_intCast (k : ℕ) (x : ℚ) (n : ℤ) (h : x * 10 ^ k = (n : ℚ)) :
    roundPy k x = (n : ℚ) / 10 ^ k := by
  unfold roundPy
  rw [h, rhe_intCast]

theorem safe_div_none (x d : ℚ) : safe_div x Option.none d = d := rfl

theorem safe_div_some_zero (x d : ℚ) : safe_div x (Option.some 0) d = d := by
  simp [safe_div]

theorem safe_div_some_ne (x y d : ℚ) (hy : y ≠ 0) :
    safe_div x (Option.some y) d = x / y := by
  simp [safe_div, hy]

theorem safe_div_some_eq_zero (x y d : ℚ) (hy : y = 0) :
    safe_div x (Option.some y) d = d := by
  simp [safe_div, hy]

/-- Both percentage fields of the distribution, before rounding, are
fractions of the same claimed total, so their roundings sum to at most
100 points. -/
theorem rates_sum_le (c f w : ℕ) :
    roundPy 1 (safe_div ((c : ℚ) * 100)
      (Option.some ((c : ℚ) + (f : ℚ) + (w : ℚ))) 0)
    + roundPy 1 (safe_div ((f : ℚ) * 100)
      (Option.some ((c : ℚ) + (f : ℚ) + (w : ℚ))) 0) ≤ 100 := by
  have hc0 : 0 ≤ (c : ℚ) := by positivity
  have hf0 : 0 ≤ (f : ℚ) := by positivity
  have hw0 : 0 ≤ (w : ℚ) := by positivity
  by_cases hct : (c : ℚ) + (f : ℚ) + (w : ℚ) = 0
  · rw [safe_div_some_eq_zero _ _ _ hct, safe_div_some_eq_zero _ _ _ hct,
      roundPy_zero]
    norm_num
  · have hpos : 0 < (c : ℚ) + (f : ℚ) + (w : ℚ) :=
      lt_of_le_of_ne (by linarith) (fun h => hct h.symm)
    rw [safe_div_some_ne _ _ _ hct, safe_div_some_ne _ _ _ hct]
    unfold roundPy
    have hsum : (c : ℚ) * 100 / ((c : ℚ) + (f : ℚ) + (w : ℚ)) * 10 ^ 1
        + (f : ℚ) * 100 / ((c : ℚ) + (f : ℚ) + (w : ℚ)) * 10 ^ 1 ≤ 1000 := by
      have heq : (c : ℚ) * 100 / ((c : ℚ) + (f : ℚ) + (w : ℚ)) * 10 ^ 1
          + (f : ℚ) * 100 / ((c : ℚ) + (f : ℚ) + (w : ℚ)) * 10 ^ 1
          = ((c : ℚ) + (f : ℚ)) * 1000 / ((c : ℚ) + (f : ℚ) + (w : ℚ)) := by
        field_simp
        ring
      rw [heq, div_le_iff₀ hpos]
      nlinarith
    have key := rhe_add_le _ _ hsum
    have key2 : ((rhe ((c : ℚ) * 100 / ((c : ℚ) + (f : ℚ) + (w : ℚ)) * 10 ^ 1) : ℚ)
        + (rhe ((f : ℚ) * 100 / ((c : ℚ) + (f : ℚ) + (w : ℚ)) * 10 ^ 1) : ℚ))
        ≤ 1000 := by
      exact_mod_cast key
    have hten : ((10 : ℚ)) ^ 1 = 10 := by norm_num
    rw [hten] at key2 ⊢
    linarith

/-- With an empty claimed total both rates fall back to the safe-division
default and round to 0. -/
theorem rates_zero (c f w : ℕ) (h : c + f + w = 0) :
    roundPy 1 (safe_div ((c : ℚ) * 100)
      (Option.some ((c : ℚ) + (f : ℚ) + (w : ℚ))) 0) = 0
    ∧ roundPy 1 (safe_div ((f : ℚ) * 100)
      (Option.some ((c : ℚ) + (f : ℚ) + (w : ℚ))) 0) = 0 := by
  have hq : (c : ℚ) + (f : ℚ) + (w : ℚ) = 0 := by
    have hcast : ((c + f + w : ℕ) : ℚ) = ((0 : ℕ) : ℚ) := by rw [h]
    push_cast at hcast
    linarith
  rw [safe_div_some_eq_zero _ _ _ hq, safe_div_some_eq_zero _ _ _ hq, roundPy_zero]
  exact ⟨rfl, rfl⟩

/-- The 7 completed / 2 failed / 1 working scenario evaluates to
rates 70.0 % and 20.0 %. -/
theorem dist_demo :
    countStatus Status.completed (liveTasks demoTasks) = 7 ∧
    countStatus Status.failed (liveTasks demoTasks) = 2 ∧
    countStatus Status.working (liveTasks demoTasks) = 1 ∧
    (distributionNonNull (liveTasks demoTasks)).completion_rate_pct = 70 ∧
    (distributionNonNull (liveTasks demoTasks)).failure_rate_pct = 20 := by
  have hc : countStatus Status.completed (liveTasks demoTasks) = 7 := by decide
  have hf : countStatus Status.failed (liveTasks demoTasks) = 2 := by decide
  have hw : countStatus Status.working (liveTasks demoTasks) = 1 := by decide
  refine ⟨hc, hf, hw, ?_, ?_⟩
  · simp only [distributionNonNull, hc, hf, hw]
    rw [show ((7 : ℕ) : ℚ) + ((2 : ℕ) : ℚ) + ((1 : ℕ) : ℚ) = 10 by norm_num]
    rw [safe_div_some_ne _ _ _ (by norm_num)]
    rw [roundPy_eq_of_intCast 1 _ 700 (by push_cast; norm_num)]
    norm_num
  · simp only [distributionNonNull, hc, hf, hw]
    rw [show ((7 : ℕ) : ℚ) + ((2 : ℕ) : ℚ) + ((1 : ℕ) : ℚ) = 10 by norm_num]
    rw [safe_div_some_ne _ _ _ (by norm_num)]
    rw [roundPy_eq_of_intCast 1 _ 200 (by push_cast; norm_num)]
    norm_num

/-- Over a non-empty row set the status-count aggregate is non-NULL. -/
theorem sumStatusCase_of_ne_nil (s : Status) (l : List Task) (h : l ≠ []) :
    sumStatusCase s l = Option.some (countStatus s l) := by
  cases l with
  | nil => exact absurd rfl h
  | cons a t => rfl

/-- The distribution block succeeds on a non-empty live set. -/
theorem distributionRun_of_ne_nil (live : List Task) (h : live ≠ []) :
    distributionRun live = Except.ok (distributionNonNull live) := by
  cases live with
  | nil => exact absurd rfl h
  | cons a t => rfl

/-- The distribution block raises `TypeError` on an empty live set. -/
theorem distributionRun_nil : distributionRun [] = Except.error () := rfl

/-- Extraction on a store with at least one live row succeeds and
produces the snapshot assembled from the group functions. -/
theorem extract_metrics_of_ne_nil (st : Store) (p l : String) (now : Int)
    (h : liveTasks st.tasks ≠ []) :
    extract_metrics st p l now = Except.ok
      { label := l
        db_path := p
        agent_count := (agentsOf (liveTasks st.tasks)).length
        time := timeOf (liveTasks st.tasks) st.seq now
        tokens := tokensOf (liveTasks st.tasks)
        cost := costOf (liveTasks st.tasks)
        tasks := distributionNonNull (liveTasks st.tasks)
        quality := qualityOpt st.seq
        throughput := throughputOf (liveTasks st.tasks)
          (timeOf (liveTasks st.tasks) st.seq now).total_duration_ms
          (agentsOf (liveTasks st.tasks)).length
        agents := agentsOf (liveTasks st.tasks) } := by
  simp only [extract_metrics]
  rw [distributionRun_of_ne_nil (liveTasks st.tasks) h]

/-- Extraction on a store with no live rows dies with the `TypeError`
of the distribution block. -/
theorem extract_metrics_of_nil (st : Store) (p l : String) (now : Int)
    (h : liveTasks st.tasks = []) :
    extract_metrics st p l now = Except.error () := by
  simp only [extract_metrics]
  rw [h, distributionRun_nil]

/-! The claims. -/

/-- C1 counterexample: on a store with no tasks — where the claimed
total would be 0 — the program does not produce zero rates: the NULL
status sums make line 215 raise `TypeError` and the extraction yields
no snapshot at all. -/
theorem claim_C1_counterexample :
    extract_metrics emptyStore "e" "e" 0 = Except.error ()
    ∧ ∀ r : ExperimentResults,
        extract_metrics emptyStore "e" "e" 0 ≠ Except.ok r := by
  have h : extract_metrics emptyStore "e" "e" 0 = Except.error () := rfl
  refine ⟨h, fun r hr => ?_⟩
  rw [h] at hr
  cases hr

/-- C1 amended: for every snapshot the extraction actually produces —
i.e. whenever the store has at least one live task row, so the status
sums are non-NULL — the rate denominator is the claimed total
`completed + failed + working`, the two rates are its percentages
rounded to 1 decimal place, they sum to at most 100, and both are 0
when the claimed total is 0; a store with no live rows instead raises
`TypeError`; the 7 completed / 2 failed / 1 working run yields claimed
total 10, completion rate 70.0 and failure rate 20.0. -/
theorem claim_C1_rates :
    (∀ (st : Store) (p l : String) (now : Int) (r : ExperimentResults),
      extract_metrics st p l now = Except.ok r →
        (r.tasks.completion_rate_pct =
          roundPy 1 (safe_div ((r.tasks.completed : ℚ) * 100)
            (Option.some ((r.tasks.completed : ℚ) + (r.tasks.failed : ℚ)
              + (r.tasks.working : ℚ))) 0))
        ∧ (r.tasks.failure_rate_pct =
          roundPy 1 (safe_div ((r.tasks.failed : ℚ) * 100)
            (Option.some ((r.tasks.completed : ℚ) + (r.tasks.failed : ℚ)
              + (r.tasks.working : ℚ))) 0))
        ∧ (r.tasks.completion_rate_pct + r.tasks.failure_rate_pct ≤ 100)
        ∧ (r.tasks.completed + r.tasks.failed + r.tasks.working = 0 →
            r.tasks.completion_rate_pct = 0 ∧ r.tasks.failure_rate_pct = 0))
    ∧ (∀ (st : Store) (p l : String) (now : Int),
        liveTasks st.tasks = [] → extract_metrics st p l now = Except.error ())
    ∧ ((extract_metrics demoStore "demo" "demo" 0).map
        (fun r => r.tasks.completed + r.tasks.failed + r.tasks.working)
        = Except.ok 10)
    ∧ ((extract_metrics demoStore "demo" "demo" 0).map
        (fun r => r.tasks.completion_rate_pct) = Except.ok 70)
    ∧ ((extract_metrics demoStore "demo" "demo" 0).map
        (fun r => r.tasks.failure_rate_pct) = Except.ok 20) := by
  refine ⟨?_, ?_, ?_, ?_, ?_⟩
  · intro st p l now r hok
    have hne : liveTasks st.tasks ≠ [] := by
      intro hnil
      rw [extract_metrics_of_nil st p l now hnil] at hok
      cases hok
    rw [extract_metrics_of_ne_nil st p l now hne] at hok
    injection hok with hr
    subst hr
    refine ⟨rfl, rfl, ?_, ?_⟩
    · exact rates_sum_le (countStatus Status.completed (liveTasks st.tasks))
        (countStatus Status.failed (liveTasks st.tasks))
        (countStatus Status.working (liveTasks st.tasks))
    · intro h0
      exact rates_zero (countStatus Status.completed (liveTasks st.tasks))
        (countStatus Status.failed (liveTasks st.tasks))
        (countStatus Status.working (liveTasks st.tasks)) h0
  · intro st p l now h
    exact extract_metrics_of_nil st p l now h
  · rw [extract_metrics_of_ne_nil demoStore "demo" "demo" 0 (by decide)]
    exact congrArg Except.ok (by decide)
  · rw [extract_metrics_of_ne_nil demoStore "demo" "demo" 0 (by decide)]
    exact congrArg Except.ok dist_demo.2.2.2.1
  · rw [extract_metrics_of_ne_nil demoStore "demo" "demo" 0 (by decide)]
    exact congrArg Except.ok dist_demo.2.2.2.2

/-- C1 witness: the 7/2/1 store succeeds with the rates summing to at
most 100; a single-pending-task store succeeds with claimed total 0 and
both rates 0; the empty store dies with `TypeError`. -/
theorem claim_C1_rates_witness :
    (∃ r, extract_metrics demoStore "demo" "demo" 0 = Except.ok r
      ∧ r.tasks.completion_rate_pct + r.tasks.failure_rate_pct ≤ 100)
    ∧ (∃ r, extract_metrics pendStore "p" "p" 0 = Except.ok r
      ∧ r.tasks.completion_rate_pct = 0 ∧ r.tasks.failure_rate_pct = 0)
    ∧ extract_metrics emptyStore "ew" "ew" 0 = Except.error () := by
  refine ⟨?_, ?_, ?_⟩
  · have hok := extract_metrics_of_ne_nil demoStore "demo" "demo" 0 (by decide)
    exact ⟨_, hok, (claim_C1_rates.1 demoStore "demo" "demo" 0 _ hok).2.2.1⟩
  · have hok := extract_metrics_of_ne_nil pendStore "p" "p" 0 (by decide)
    have hz := (claim_C1_rates.1 pendStore "p" "p" 0 _ hok).2.2.2 (by decide)
    exact ⟨_, hok, hz.1, hz.2⟩
  · exact claim_C1_rates.2.1 emptyStore "ew" "ew" 0 (by decide)

/-- Characterisation of the indicator produced by `_delta`: no marker
exactly at 0, improvement exactly at the favorable sign, regression
exactly at the unfavorable sign. -/
theorem delta_core_marker (va vb : ℚ) (lb : Bool) :
    ((delta_core va vb lb).marker = Marker.nomark ↔ vb - va = 0)
    ∧ ((delta_core va vb lb).marker = Marker.improvement ↔
        (if lb then vb - va < 0 else 0 < vb - va))
    ∧ ((delta_core va vb lb).marker = Marker.regression ↔
        (if lb then 0 < vb - va else vb - va < 0)) := by
  simp only [delta_core]
  rcases lt_trichotomy (vb - va) 0 with h | h | h
  · cases lb <;> simp_all [ne_of_lt h, lt_asymm h]
  · cases lb <;> simp_all
  · cases lb <;> simp_all [ne_of_gt h, lt_asymm h]

/-- C2: every delta row computes `diff = b - a`,
`pct = diff * 100 / |a|` (0 when `a = 0`), marks an improvement exactly
when diff's sign matches the metric's favorable direction, a regression
exactly when diff is nonzero with the unfavorable sign, and no marker
exactly when diff is 0; the polarity table is exactly the one of the
source; and comparing a snapshot with itself gives diff 0, pct 0 and no
marker for every tracked metric. -/
theorem claim_C2_delta :
    (∀ (a b : ExperimentResults) (m : TrackedMetric),
      ((deltaRow a b m).diff = metricValue b m - metricValue a m)
      ∧ ((deltaRow a b m).pct =
          if metricValue a m = 0 then 0
          else (metricValue b m - metricValue a m) * 100 / |metricValue a m|)
      ∧ ((deltaRow a b m).marker = Marker.nomark ↔ (deltaRow a b m).diff = 0)
      ∧ ((deltaRow a b m).marker = Marker.improvement ↔
          (if lowerIsBetter m then (deltaRow a b m).diff < 0
           else 0 < (deltaRow a b m).diff))
      ∧ ((deltaRow a b m).marker = Marker.regression ↔
          (if lowerIsBetter m then 0 < (deltaRow a b m).diff
           else (deltaRow a b m).diff < 0)))
    ∧ (lowerIsBetter TrackedMetric.totalDuration = true
        ∧ lowerIsBetter TrackedMetric.totalCost = true
        ∧ lowerIsBetter TrackedMetric.reworkRate = true
        ∧ lowerIsBetter TrackedMetric.totalBillableTokens = true
        ∧ lowerIsBetter TrackedMetric.blockingRatioPct = true
        ∧ lowerIsBetter TrackedMetric.tasksCompleted = false
        ∧ lowerIsBetter TrackedMetric.completionRate = false
        ∧ lowerIsBetter TrackedMetric.tasksPerHour = false)
    ∧ (∀ (a : ExperimentResults) (m : TrackedMetric),
        deltaRow a a m = { diff := 0, pct := 0, marker := Marker.nomark }) := by
  refine ⟨?_, by decide, ?_⟩
  · intro a b m
    have hm := delta_core_marker (metricValue a m) (metricValue b m) (lowerIsBetter m)
    refine ⟨rfl, ?_, hm.1, hm.2.1, hm.2.2⟩
    simp only [deltaRow, delta_core]
    by_cases h : metricValue a m = 0
    · simp [h]
    · simp only [h, if_false]
      rw [safe_div_some_ne _ _ _ (abs_ne_zero.mpr h)]
  · intro a m
    simp only [deltaRow, delta_core]
    by_cases h : metricValue a m = 0 <;>
      simp [h, safe_div_some_ne _ _ _ (abs_ne_zero.mpr _)]

/-- C3: the safe-division primitive returns the default for an absent
(`None`) denominator and for a zero denominator, returns the true
quotient for every nonzero denominator, and is a total function (it
never raises). -/
theorem claim_C3_safe_div :
    ∀ (x d : ℚ),
      safe_div x Option.none d = d
      ∧ safe_div x (Option.some 0) d = d
      ∧ ∀ y : ℚ, y ≠ 0 → safe_div x (Option.some y) d = x / y := by
  intro x d
  exact ⟨safe_div_none x d, safe_div_some_zero x d,
    fun y hy => safe_div_some_ne x y d hy⟩

/-- C3 witness: concrete instances of the three safe-division cases. -/
theorem claim_C3_safe_div_witness :
    safe_div 5 Option.none 3 = 3
    ∧ safe_div 5 (Option.some 0) 3 = 3
    ∧ safe_div 5 (Option.some 2) 3 = 5 / 2 :=
  ⟨(claim_C3_safe_div 5 3).1, (claim_C3_safe_div 5 3).2.1,
    (claim_C3_safe_div 5 3).2.2 2 (by norm_num)⟩

/-- The sorted positive durations of the two median scenarios. -/
theorem sortedPositiveTimes_demo :
    sortedPositiveTimes (liveTasks demoMedOdd) = [10, 20, 30]
    ∧ sortedPositiveTimes (liveTasks demoMedEven) = [10, 20, 30, 40] := by
  constructor <;> decide

/-- C4: the median task time sorts the strictly positive actual
durations (dropping NULL and 0), takes the middle element on an odd
count and the mean of the two central elements on an even count —
durations 10/20/30 give 20, durations 10/20/30/40 give 25 — and is 0
when no positive duration exists. -/
theorem claim_C4_median :
    ((extract_metrics { tasks := demoMedOdd, seq := Option.none } "m" "m" 0).map
      (fun r => r.time.median_task_time_ms) = Except.ok 20)
    ∧ ((extract_metrics { tasks := demoMedEven, seq := Option.none } "m" "m" 0).map
      (fun r => r.time.median_task_time_ms) = Except.ok 25)
    ∧ ∀ live : List Task,
        ((live.filterMap (·.time_actual_ms)).filter fun x => 0 < x) = [] →
        medianOf live = 0 := by
  refine ⟨?_, ?_, ?_⟩
  · rw [extract_metrics_of_ne_nil _ "m" "m" 0 (by decide)]
    refine congrArg Except.ok ?_
    show medianOf (liveTasks demoMedOdd) = 20
    rw [medianOf, sortedPositiveTimes_demo.1]
    norm_num
  · rw [extract_metrics_of_ne_nil _ "m" "m" 0 (by decide)]
    refine congrArg Except.ok ?_
    show medianOf (liveTasks demoMedEven) = 25
    rw [medianOf, sortedPositiveTimes_demo.2]
    norm_num
  · intro live h
    rw [medianOf, sortedPositiveTimes, h]
    simp

/-- C4 witness: a task list with only a NULL duration has median 0. -/
theorem claim_C4_median_witness : medianOf [task0] = 0 :=
  claim_C4_median.2.2 [task0] (by decide)

/-- A complementary percentage pair — `k` and `n - k` parts of a whole
`n` — rounds to figures summing to exactly 100. -/
theorem rate_pair_sum (k n : ℕ) (hk : k ≤ n) (hn : 0 < n) :
    roundPy 1 (safe_div ((k : ℚ) * 100) (Option.some (n : ℚ)) 0)
    + roundPy 1 (safe_div (((n - k : ℕ) : ℚ) * 100) (Option.some (n : ℚ)) 0)
    = 100 := by
  have hnq : (n : ℚ) ≠ 0 := Nat.cast_ne_zero.mpr hn.ne'
  rw [safe_div_some_ne _ _ _ hnq, safe_div_some_ne _ _ _ hnq]
  unfold roundPy
  have hcast : ((n - k : ℕ) : ℚ) = (n : ℚ) - (k : ℚ) := Nat.cast_sub hk
  rw [hcast]
  have hB : ((n : ℚ) - (k : ℚ)) * 100 / (n : ℚ) * 10 ^ 1
      = ((1000 : ℤ) : ℚ) - (k : ℚ) * 100 / (n : ℚ) * 10 ^ 1 := by
    push_cast
    field_simp
    ring
  rw [hB]
  have hr := rhe_reflect ((k : ℚ) * 100 / (n : ℚ) * 10 ^ 1) 1000 (by norm_num)
  have h2 : ((rhe ((k : ℚ) * 100 / (n : ℚ) * 10 ^ 1) : ℤ) : ℚ)
      + ((rhe (((1000 : ℤ) : ℚ) - (k : ℚ) * 100 / (n : ℚ) * 10 ^ 1) : ℤ) : ℚ)
      = 1000 := by
    exact_mod_cast hr
  rw [div_add_div_same, h2]
  norm_num

/-- C5: a task is reworked iff it has strictly more than one working
interval, and whenever at least one task has a working interval the
rework rate and the first-pass success rate sum to exactly 100 (the
1-decimal roundings are complementary). -/
theorem claim_C5_quality :
    ∀ seq : List SeqRow,
      ((qualityOf seq).rework_count =
        ((workingTaskIds seq).filter fun tid => 1 < workingPeriods seq tid).length)
      ∧ (workingTaskIds seq ≠ [] →
          (qualityOf seq).rework_rate_pct + (qualityOf seq).first_pass_success_pct
            = 100) := by
  intro seq
  refine ⟨rfl, ?_⟩
  intro h
  have htw : 0 < (workingTaskIds seq).length := List.length_pos.mpr h
  have hk : ((workingTaskIds seq).filter fun tid => 1 < workingPeriods seq tid).length
      ≤ (workingTaskIds seq).length := List.length_filter_le _ _
  simp only [qualityOf]
  exact rate_pair_sum _ _ hk htw

/-- C5 witness: with task 1 reworked (two working intervals) and task 2
first-pass, the two quality rates sum to 100. -/
theorem claim_C5_quality_witness :
    (qualityOf demoSeqRework).rework_rate_pct
      + (qualityOf demoSeqRework).first_pass_success_pct = 100 :=
  (claim_C5_quality demoSeqRework).2 (by decide)

theorem two_mul_length_le_sum (l : List ℕ) (h : ∀ x ∈ l, 2 ≤ x) :
    2 * l.length ≤ l.sum := by
  induction l with
  | nil => simp
  | cons a t ih =>
    simp only [List.length_cons, List.sum_cons]
    have ha := h a (List.mem_cons_self a t)
    have ht := ih fun x hx => h x (List.mem_cons_of_mem a hx)
    omega

theorem two_le_roundPy_one (x : ℚ) (hx : 2 ≤ x) : 2 ≤ roundPy 1 x := by
  unfold roundPy
  set z : ℤ := rhe (x * 10 ^ 1) with hz
  have hb : x * 10 ^ 1 - 1 / 2 ≤ (z : ℚ) := le_rhe (x * 10 ^ 1)
  have h20 : (20 : ℚ) ≤ x * 10 ^ 1 := by
    rw [show ((10 : ℚ)) ^ 1 = 10 by norm_num]
    linarith
  have h1 : (39 : ℚ) ≤ 2 * (z : ℚ) := by linarith
  have h2 : (39 : ℤ) ≤ 2 * z := by exact_mod_cast h1
  have h3 : (20 : ℤ) ≤ z := by omega
  have h4 : (20 : ℚ) ≤ (z : ℚ) := by exact_mod_cast h3
  rw [show ((10 : ℚ)) ^ 1 = 10 by norm_num]
  linarith

/-- C10: the average rework cycles is 0 when no task is reworked, and at
least 2 when some task is (it averages the per-task working-interval
counts over reworked tasks, each of which is at least 2). -/
theorem claim_C10_avg_cycles :
    ∀ seq : List SeqRow,
      ((qualityOf seq).rework_count = 0 → (qualityOf seq).avg_rework_cycles = 0)
      ∧ (0 < (qualityOf seq).rework_count →
          2 ≤ (qualityOf seq).avg_rework_cycles) := by
  intro seq
  constructor
  · intro h0
    simp only [qualityOf] at h0 ⊢
    have hnil : ((workingTaskIds seq).filter fun tid => 1 < workingPeriods seq tid)
        = [] := List.length_eq_zero.mp h0
    rw [hnil]
    simp [safe_div, roundPy_zero]
  · intro hpos
    simp only [qualityOf] at hpos ⊢
    set rIds := (workingTaskIds seq).filter fun tid => 1 < workingPeriods seq tid
      with hrids
    have helem : ∀ x ∈ rIds.map (workingPeriods seq), 2 ≤ x := by
      intro x hx
      obtain ⟨tid, htid, rfl⟩ := List.mem_map.mp hx
      have hp := (List.mem_filter.mp htid).2
      have := of_decide_eq_true hp
      omega
    have hsum := two_mul_length_le_sum _ helem
    have hlpos : 0 < (rIds.map (workingPeriods seq)).length := by
      rw [List.length_map]
      exact hpos
    have hlq : ((rIds.map (workingPeriods seq)).length : ℚ) ≠ 0 :=
      Nat.cast_ne_zero.mpr hlpos.ne'
    rw [safe_div_some_ne _ _ _ hlq]
    refine two_le_roundPy_one _ ?_
    rw [le_div_iff₀ (by positivity)]
    exact_mod_cast hsum

/-- C10 witness: with no sequence rows the average is 0; with task 1
worked twice it is at least 2. -/
theorem claim_C10_avg_cycles_witness :
    (qualityOf []).avg_rework_cycles = 0
    ∧ 2 ≤ (qualityOf demoSeqRework).avg_rework_cycles :=
  ⟨(claim_C10_avg_cycles []).1 (by decide),
    (claim_C10_avg_cycles demoSeqRework).2 (by decide)⟩

/-- Prepending a soft-deleted row leaves the live view unchanged. -/
theorem liveTasks_cons_of_deleted (t : Task) (ts : List Task)
    (h : t.deleted_at ≠ Option.none) : liveTasks (t :: ts) = liveTasks ts := by
  cases hd : t.deleted_at with
  | none => exact absurd hd h
  | some v => simp [liveTasks, List.filter_cons, hd]

/-- C6 counterexample: in a store with one live task and one
soft-deleted task whose working intervals are in the sequence table, the
extraction succeeds and the interval aggregates still count the
soft-deleted task's intervals — 6000 ms of working time and rework
count 1 instead of the 0 the claim predicts. -/
theorem claim_C6_counterexample :
    ((extract_metrics delStoreLive "del" "del" 0).map
      (fun r => r.time.total_working_ms) = Except.ok 6000)
    ∧ ((extract_metrics delStoreLive "del" "del" 0).map
      (fun r => r.quality.rework_count) = Except.ok 1)
    ∧ ((extract_metrics delStoreLive "del" "del" 0).map
      (fun r => r.time.total_working_ms) ≠ Except.ok 0) := by
  have h6 : (extract_metrics delStoreLive "del" "del" 0).map
      (fun r => r.time.total_working_ms) = Except.ok 6000 := rfl
  refine ⟨h6, rfl, fun hc => ?_⟩
  rw [h6] at hc
  injection hc with hv
  exact absurd hv (by decide)

/-- C6 amended: soft-deleted task rows contribute to no task-table
aggregate — prepending a soft-deleted row to the task table leaves the
whole extraction result unchanged — while the sequence-table queries do
not filter by the owning task's deletion (see the counterexample). -/
theorem claim_C6_amended :
    ∀ (t : Task) (ts : List Task) (seq : Option (List SeqRow))
      (p l : String) (now : Int),
      t.deleted_at ≠ Option.none →
      extract_metrics { tasks := t :: ts, seq := seq } p l now
        = extract_metrics { tasks := ts, seq := seq } p l now := by
  intro t ts seq p l now h
  simp only [extract_metrics]
  rw [liveTasks_cons_of_deleted t ts h]

/-- C6 witness: prepending the soft-deleted task to the live-task store
leaves the extraction result unchanged. -/
theorem claim_C6_amended_witness :
    extract_metrics { tasks := delTask :: [task0], seq := Option.some delSeq }
        "d" "d" 0
      = extract_metrics { tasks := [task0], seq := Option.some delSeq } "d" "d" 0 :=
  claim_C6_amended delTask [task0] (Option.some delSeq) "d" "d" 0 (by decide)

/-- C7 counterexample: a store without the sequence table whose only
task is soft-deleted — so it has no live rows — does not extract
successfully: the distribution block raises `TypeError` and no snapshot
with zero-default quality fields is returned. -/
theorem claim_C7_counterexample :
    extract_metrics allDelStore "m" "m" 0 = Except.error ()
    ∧ ∀ r : ExperimentResults,
        extract_metrics allDelStore "m" "m" 0 ≠ Except.ok r := by
  have h : extract_metrics allDelStore "m" "m" 0 = Except.error () := rfl
  refine ⟨h, fun r hr => ?_⟩
  rw [h] at hr
  cases hr

/-- C7 amended: with no sequence table, extraction of a store with at
least one live task row succeeds: the quality group is all zeros with
its keys present, the interval-derived time fields are 0, and the
mandatory groups (distribution, time, tokens, cost, throughput) are
computed as usual; with no live rows extraction instead raises the
distribution block's `TypeError`, independent of the interval
dataset. -/
theorem claim_C7_optional_absent :
    ∀ (ts : List Task) (p l : String) (now : Int),
      liveTasks ts ≠ [] →
      ∃ r : ExperimentResults,
        extract_metrics { tasks := ts, seq := Option.none } p l now = Except.ok r
        ∧ r.quality = { rework_count := 0, rework_rate_pct := 0, avg_rework_cycles := 0, first_pass_success_pct := 0 }
        ∧ r.time.total_working_ms = 0
        ∧ r.time.total_blocked_ms = 0
        ∧ r.time.blocking_ratio_pct = 0
        ∧ r.time.avg_queue_wait_ms = 0
        ∧ distributionRun (liveTasks ts) = Except.ok r.tasks
        ∧ r.time = timeOf (liveTasks ts) Option.none now
        ∧ r.tokens = tokensOf (liveTasks ts)
        ∧ r.cost = costOf (liveTasks ts)
        ∧ r.throughput = throughputOf (liveTasks ts)
            (timeOf (liveTasks ts) Option.none now).total_duration_ms
            (agentsOf (liveTasks ts)).length := by
  intro ts p l now h
  refine ⟨_, extract_metrics_of_ne_nil { tasks := ts, seq := Option.none } p l now h,
    rfl, rfl, rfl, rfl, rfl, ?_, rfl, rfl, rfl, rfl⟩
  exact distributionRun_of_ne_nil (liveTasks ts) h

/-- C7 witness: the single-pending-task store without a sequence table
extracts successfully with an all-zero quality group. -/
theorem claim_C7_optional_absent_witness :
    ∃ r : ExperimentResults,
      extract_metrics { tasks := [task0], seq := Option.none } "w" "w" 0
          = Except.ok r
        ∧ r.quality = { rework_count := 0, rework_rate_pct := 0, avg_rework_cycles := 0, first_pass_success_pct := 0 } := by
  obtain ⟨r, hok, hq, _⟩ :=
    claim_C7_optional_absent [task0] "w" "w" 0 (by decide)
  exact ⟨r, hok, hq⟩

/-- C8 counterexample: with the middle run's store missing and the
other two stores present and extractable, the whole invocation aborts
with `sys.exit(1)` — no snapshot list is produced at all, so the other
runs are not extracted, contradicting the claimed partial success. -/
theorem claim_C8_counterexample :
    extract_all 0 runsDemo = Except.error ExtractError.storeNotFound
    ∧ ∀ rs : List ExperimentResults, extract_all 0 runsDemo ≠ Except.ok rs := by
  have h : extract_all 0 runsDemo = Except.error ExtractError.storeNotFound := rfl
  refine ⟨h, fun rs hrs => ?_⟩
  rw [h] at hrs
  cases hrs

/-- C8 amended: the extraction loop produces a snapshot list iff every
run's store exists and has at least one live task row; any failing run —
a missing store via `sys.exit(1)`, an existing store with no live rows
via `TypeError` — terminates the whole process, producing no snapshot
for any run, so partial success across runs does not occur. -/
theorem claim_C8_amended :
    ∀ (now : Int) (runs : List RunInput),
      ((∃ rs, extract_all now runs = Except.ok rs)
        ↔ ∀ r ∈ runs, ∃ st, r.store = Option.some st ∧ liveTasks st.tasks ≠ []) := by
  intro now runs
  induction runs with
  | nil => simp [extract_all]
  | cons r rest ih =>
    cases hs : r.store with
    | none =>
      refine iff_of_false ?_ ?_
      · rintro ⟨rs, hrs⟩
        have herr : extract_all now (r :: rest)
            = Except.error ExtractError.storeNotFound := by
          simp [extract_all, extract_run, hs]
        rw [herr] at hrs
        cases hrs
      · intro hall
        obtain ⟨st, hst, _⟩ := hall r (List.mem_cons_self r rest)
        rw [hs] at hst
        cases hst
    | some st =>
      by_cases hl : liveTasks st.tasks = []
      · refine iff_of_false ?_ ?_
        · rintro ⟨rs, hrs⟩
          have hrun : extract_run r now = Except.error ExtractError.typeError := by
            simp [extract_run, hs,
              extract_metrics_of_nil st r.db_path r.label now hl]
          have herr : extract_all now (r :: rest)
              = Except.error ExtractError.typeError := by
            simp [extract_all, hrun]
          rw [herr] at hrs
          cases hrs
        · intro hall
          obtain ⟨st', hst', hne⟩ := hall r (List.mem_cons_self r rest)
          rw [hs] at hst'
          injection hst' with he
          exact hne (he ▸ hl)
      · have hok := extract_metrics_of_ne_nil st r.db_path r.label now hl
        cases hrun : extract_run r now with
        | error e =>
          exfalso
          simp [extract_run, hs, hok] at hrun
        | ok v =>
          have hunfold : extract_all now (r :: rest)
              = (extract_all now rest).map (fun rs => v :: rs) := by
            simp [extract_all, hrun]
          constructor
          · rintro ⟨rs, hrs⟩
            rw [hunfold] at hrs
            cases hrest : extract_all now rest with
            | error e =>
              rw [hrest] at hrs
              cases hrs
            | ok rs' =>
              intro x hx
              rcases List.mem_cons.mp hx with heq | hx'
              · exact heq ▸ ⟨st, hs, hl⟩
              · exact (ih.mp ⟨rs', hrest⟩) x hx'
          · intro hall
            obtain ⟨rs', hrs'⟩ :=
              ih.mpr (fun x hx => hall x (List.mem_cons_of_mem r hx))
            refine ⟨v :: rs', ?_⟩
            rw [hunfold, hrs']
            rfl

/-- C9 counterexample: when the first statement on the connection
raises — on a store whose extraction would otherwise succeed — the
function exits with the connection opened once and never closed,
contradicting release on every exit path. -/
theorem claim_C9_counterexample :
    (extract_conn pendStore "d" "d" 0 (Option.some 0)).2.opens = 1
    ∧ (extract_conn pendStore "d" "d" 0 (Option.some 0)).2.closes = 0 := by
  constructor <;> rfl

/-- C9 amended: each extraction opens exactly one read-only connection;
it is closed on the successful path, but a failing statement — or the
`TypeError` raised over a store with no live rows, where no SQL
statement fails at all — propagates out before `conn.close()` is
reached, leaving the connection unclosed on that exit path. -/
theorem claim_C9_amended :
    ∀ (st : Store) (p l : String) (now : Int),
      (liveTasks st.tasks ≠ [] →
        (extract_conn st p l now Option.none).2 = { opens := 1, closes := 1 })
      ∧ (liveTasks st.tasks = [] →
        (extract_conn st p l now Option.none).2 = { opens := 1, closes := 0 })
      ∧ (∀ i : Nat, i < queryCount st →
        (extract_conn st p l now (Option.some i)).2
          = { opens := 1, closes := 0 }) := by
  intro st p l now
  refine ⟨?_, ?_, ?_⟩
  · intro h
    simp [extract_conn, extract_conn_run, extract_metrics_of_ne_nil st p l now h]
  · intro h
    simp [extract_conn, extract_conn_run, extract_metrics_of_nil st p l now h]
  · intro i hi
    simp [extract_conn, hi]

/-- C9 witness: on the single-pending-task store the success path closes
the connection; on the empty store no statement fails yet the
`TypeError` leaves the connection open; a fault at statement 2 also
leaves it open. -/
theorem claim_C9_amended_witness :
    ((extract_conn pendStore "e" "e" 0 Option.none).2
      = { opens := 1, closes := 1 })
    ∧ ((extract_conn emptyStore "e" "e" 0 Option.none).2
      = { opens := 1, closes := 0 })
    ∧ ((extract_conn pendStore "e" "e" 0 (Option.some 2)).2
      = { opens := 1, closes := 0 }) :=
  ⟨(claim_C9_amended pendStore "e" "e" 0).1 (by decide),
    (claim_C9_amended emptyStore "e" "e" 0).2.1 (by decide),
    (claim_C9_amended pendStore "e" "e" 0).2.2 2 (by decide)⟩

end TaskGraphCompare
